import Mathlib

/-!
Verification of the document-construction and retrieval-augmented query
pipeline of the RAG logistics assistant.  The file shallowly embeds the
relevant parts of rag/chain.py, rag/data_loader.py, rag/vector_store.py and
main.py (tabular rows, document builders, context assembly, vector-store
creation and loading) and proves the specified properties about them.
-/

set_option maxRecDepth 100000

namespace RagLogistics

/-- Value stored in one cell of a tabular row: either text or an integral
number (the source datasets hold integral values in every numerically
formatted field that the templates read). -/
inductive FVal where
  | str (s : String)
  | int (n : Int)
deriving DecidableEq, Repr

/-- Raw Record: one row of a tabular source, as an association list from
column name to cell value; a column absent from the list models a field that
is missing from the row. -/
abbrev Row := List (String × FVal)

/-- Embedding of Python row.get(key, default) (pandas Series.get): the
stored value when the column is present, the default otherwise. -/
def rowGet (row : Row) (k : String) (dflt : FVal) : FVal :=
  (List.lookup k row).getD dflt

/-- Rendering of a cell value inside an f-string hole (Python str()). -/
def showF : FVal → String
  | .str s => s
  | .int n => toString n

/-- Python format spec :.2f applied to an integral cell value: n renders as
"n.00".  Text is passed through unchanged (the source datasets only carry
numbers in the two fields formatted this way). -/
def fmt2 : FVal → String
  | .int n => toString n ++ ".00"
  | .str s => s

/-- LangChain Document: page text plus string-keyed metadata. -/
structure Document where
  page_content : String
  metadata : List (String × String)
deriving DecidableEq, Repr

/-- Embedding of Python dict.get(key, default) on a Document's metadata. -/
def metaGet (m : List (String × String)) (k dflt : String) : String :=
  (List.lookup k m).getD dflt

/-- One context block appended by the loop of chain.format_docs: the string
"[Documento \x7bi\x7d - \x7bsource\x7d]\n\x7bpage_content\x7d" for the
enumerated pair (i, doc), with the source read through
doc.metadata.get('source', 'unknown'). -/
def formatBlock (p : Nat × Document) : String :=
  "[Documento " ++ toString p.1 ++ " - " ++ metaGet p.2.metadata "source" "unknown"
    ++ "]\n" ++ p.2.page_content

/-- List of blocks built by chain.format_docs over enumerate(docs, 1). -/
def contextBlocks (docs : List Document) : List String :=
  (List.enumFrom 1 docs).map formatBlock

/-- Embedding of chain.format_docs: the blocks joined by "\n\n---\n\n". -/
def format_docs (docs : List Document) : String :=
  String.intercalate "\n\n---\n\n" (contextBlocks docs)

lemma enumFrom_map_eq_range_map {α β : Type} (f : Nat × α → β) (d : α) :
    ∀ (l : List α) (n : Nat),
      (List.enumFrom n l).map f
        = (List.range l.length).map (fun i => f (n + i, l.getD i d))
  | [], _ => rfl
  | a :: t, n => by
    have ih := enumFrom_map_eq_range_map f d t (n + 1)
    simp only [List.enumFrom, List.map_cons, List.length_cons,
      List.range_succ_eq_map, List.map_map, ih]
    congr 1
    refine congrArg (fun g => List.map g (List.range t.length))
      (funext fun i => ?_)
    simp only [Function.comp, List.getD_cons_succ]
    have h : n + 1 + i = n + (i + 1) := by omega
    rw [h]

/-- C1: for every sequence of retrieved Documents, the composed context
equals the blocks "[Documento \x7bi\x7d - \x7bsource\x7d]" followed by a
newline and the document's content, for i = 1..len in retrieval order,
joined by "\n\n---\n\n"; for the two documents (content "A", source "s1")
and (content "B", source "s2") it equals
"[Documento 1 - s1]\nA\n\n---\n\n[Documento 2 - s2]\nB", and for an empty
sequence it is the empty string. -/
theorem format_docs_context_assembly :
    (∀ docs : List Document,
       format_docs docs = String.intercalate "\n\n---\n\n"
         ((List.range docs.length).map (fun i =>
            "[Documento " ++ toString (i + 1) ++ " - "
              ++ metaGet (docs.getD i ⟨"", []⟩).metadata "source" "unknown"
              ++ "]\n" ++ (docs.getD i ⟨"", []⟩).page_content)))
    ∧ format_docs [⟨"A", [("source", "s1")]⟩, ⟨"B", [("source", "s2")]⟩]
        = "[Documento 1 - s1]\nA\n\n---\n\n[Documento 2 - s2]\nB"
    ∧ format_docs [] = "" := by
  refine ⟨?_, by rfl, rfl⟩
  intro docs
  unfold format_docs contextBlocks
  rw [enumFrom_map_eq_range_map formatBlock ⟨"", []⟩ docs 1]
  refine congrArg _ (congrArg (fun g => List.map g (List.range docs.length))
    (funext fun i => ?_))
  simp only [formatBlock]
  rw [Nat.add_comm 1 i]

/-- C10: for a retrieved Document whose metadata lacks the source key,
context composition does not fail and the provenance marker of that
document's block is rendered with the literal label "unknown". -/
theorem format_docs_missing_source_unknown
    (docs : List Document) (i : Nat) (h : i < docs.length)
    (hsrc : List.lookup "source" (docs[i]).metadata = none) :
    (contextBlocks docs)[i]?
      = some ("[Documento " ++ toString (i + 1) ++ " - " ++ "unknown" ++ "]\n"
          ++ (docs[i]).page_content) := by
  unfold contextBlocks
  rw [List.getElem?_map, List.getElem?_enumFrom, List.getElem?_eq_getElem h]
  rw [Nat.add_comm 1 i]
  simp [formatBlock, metaGet, hsrc]

theorem format_docs_missing_source_unknown_witness :
    (contextBlocks [⟨"X", []⟩])[0]?
      = some ("[Documento " ++ toString (0 + 1) ++ " - " ++ "unknown" ++ "]\n"
          ++ (([⟨"X", []⟩] : List Document)[0]).page_content) :=
  format_docs_missing_source_unknown [⟨"X", []⟩] 0 (by decide) rfl

/-- Error taxonomy the spec assigns to the Index Store.  The source code
never constructs any of these values. -/
inductive VSError where
  | noDocumentsError
deriving DecidableEq, Repr

/-- Handle on a Chroma collection: its name and the documents it holds. -/
structure Chroma where
  collection_name : String
  docs : List Document
deriving DecidableEq, Repr

/-- Embedding of vector_store.create_vector_store: it builds the store via
Chroma.from_documents over the given documents, with no emptiness check and
no failure path in its body, and returns the handle. -/
def create_vector_store (documents : List Document) (collection_name : String) :
    Except VSError Chroma :=
  Except.ok ⟨collection_name, documents⟩

/-- Embedding of the guard in main.cmd_index around indexing: when the list
of loaded documents is empty the CLI prints an error and returns without
indexing (none); otherwise it calls create_vector_store with the default
collection name. -/
def cmd_index (documents : List Document) : Option (Except VSError Chroma) :=
  if documents.isEmpty then none
  else some (create_vector_store documents "logistics_docs")

/-- C2 counterexample: calling create_vector_store with an empty document
sequence does not raise NoDocumentsError; it succeeds and creates an empty
collection. -/
theorem create_vector_store_empty_no_error :
    create_vector_store [] "logistics_docs" = Except.ok ⟨"logistics_docs", []⟩
    ∧ create_vector_store [] "logistics_docs"
        ≠ Except.error VSError.noDocumentsError :=
  ⟨rfl, fun h => Except.noConfusion h⟩

/-- C2 amended: create_vector_store performs no emptiness check and never
signals NoDocumentsError: for every document sequence (the empty one
included) it succeeds, returning a handle on a collection holding exactly
the given documents; separately, the CLI indexing command skips indexing
when zero documents were loaded. -/
theorem create_vector_store_no_empty_check
    (documents : List Document) (collection_name : String) :
    create_vector_store documents collection_name
        = Except.ok ⟨collection_name, documents⟩
    ∧ cmd_index [] = none :=
  ⟨rfl, rfl⟩

/-- State of the persisted Chroma directory: whether the chroma.sqlite3
artifact exists, and the persisted collections keyed by name. -/
structure ChromaDisk where
  sqlite_exists : Bool
  collections : List (String × List Document)

/-- Embedding of vector_store.load_vector_store: returns none exactly when
the chroma.sqlite3 artifact is absent from the Chroma directory; otherwise
it reopens the persisted collection of the given name (a name with no
persisted documents opens as an empty collection, per the Chroma
constructor's native behavior). -/
def load_vector_store (disk : ChromaDisk) (collection_name : String) :
    Option Chroma :=
  if !disk.sqlite_exists then none
  else some ⟨collection_name, (List.lookup collection_name disk.collections).getD []⟩

/-- C7: load_vector_store returns the not-found value (none) rather than
failing exactly when the on-disk chroma.sqlite3 artifact is absent; when the
artifact is present it returns a handle that reopens the persisted
collection of the requested name, so artifact presence is the sole signal
distinguishing no-index-yet from index-present-but-empty. -/
theorem load_vector_store_not_found :
    ∀ (disk : ChromaDisk) (name : String),
      (load_vector_store disk name = none ↔ disk.sqlite_exists = false)
      ∧ load_vector_store disk name
          = (if disk.sqlite_exists
             then some ⟨name, (List.lookup name disk.collections).getD []⟩
             else none) := by
  intro disk name
  rcases disk with ⟨ex, cols⟩
  cases ex <;> simp [load_vector_store]

/-- Whitespace characters removed by Python str.strip(). -/
def isPySpace (c : Char) : Bool :=
  c == ' ' || c == '\t' || c == '\n' || c == '\r' || c == '\x0b' || c == '\x0c'

/-- Removal of leading and trailing whitespace from a character list. -/
def stripChars (l : List Char) : List Char :=
  ((l.dropWhile isPySpace).reverse.dropWhile isPySpace).reverse

/-- Embedding of Python str.strip() with no argument. -/
def pyStrip (s : String) : String := ⟨stripChars s.data⟩

/-- Content template of data_loader._create_supply_chain_documents for one
row at DataFrame index idx, matching the source f-string literal (the row
accessors and their defaults follow the source line by line), stripped. -/
def scContent (idx : Nat) (row : Row) : String :=
  pyStrip ("\nOrden de Envío #" ++ showF (rowGet row "Order Id" (.int idx))
    ++ "\n======================================\nCliente: "
    ++ showF (rowGet row "Customer Full Name" (.str "N/A"))
    ++ " (" ++ showF (rowGet row "Customer Segment" (.str "N/A"))
    ++ ")\nCiudad: " ++ showF (rowGet row "Customer City" (.str "N/A"))
    ++ ", " ++ showF (rowGet row "Customer State" (.str "N/A"))
    ++ ", " ++ showF (rowGet row "Customer Country" (.str "N/A"))
    ++ "\n\nProducto: " ++ showF (rowGet row "Product Name" (.str "N/A"))
    ++ "\nCategoría: " ++ showF (rowGet row "Category Name" (.str "N/A"))
    ++ " > " ++ showF (rowGet row "Department Name" (.str "N/A"))
    ++ "\nPrecio: $" ++ fmt2 (rowGet row "Product Price" (.int 0))
    ++ "\nCantidad: " ++ showF (rowGet row "Order Item Quantity" (.int 1))
    ++ "\n\nEnvío:\n- Modo: " ++ showF (rowGet row "Shipping Mode" (.str "N/A"))
    ++ "\n- Estado: " ++ showF (rowGet row "Delivery Status" (.str "N/A"))
    ++ "\n- Días programados: "
    ++ showF (rowGet row "Days for shipping (scheduled)" (.str "N/A"))
    ++ "\n- Días reales: "
    ++ showF (rowGet row "Days for shipment (scheduled)" (.str "N/A"))
    ++ "\n\nMercado: " ++ showF (rowGet row "Market" (.str "N/A"))
    ++ "\nRegión: " ++ showF (rowGet row "Order Region" (.str "N/A")) ++ "\n")

/-- Metadata built for one supply-chain row. -/
def scMetadata (idx : Nat) (row : Row) : List (String × String) :=
  [("source", "supply_chain_dataset"),
   ("order_id", showF (rowGet row "Order Id" (.int idx))),
   ("category", showF (rowGet row "Category Name" (.str ""))),
   ("shipping_mode", showF (rowGet row "Shipping Mode" (.str ""))),
   ("market", showF (rowGet row "Market" (.str "")))]

/-- Document built from one supply-chain (index, row) pair. -/
def mkSupplyDoc (p : Nat × Row) : Document :=
  ⟨scContent p.1 p.2, scMetadata p.1 p.2⟩

/-- One step of a 64-bit linear congruential generator, driving the
pseudorandom selection of the sampling model. -/
def lcg (s : Nat) : Nat :=
  (6364136223846793005 * s + 1442695040888963407) % 18446744073709551616

/-- Deterministic pseudorandom selection of n distinct positions, the
recursion underlying the model of pandas DataFrame.sample. -/
def sampleAux {α : Type} : Nat → Nat → List α → List α
  | _, 0, _ => []
  | _, _ + 1, [] => []
  | s, n + 1, x :: xs =>
    let i := s % (x :: xs).length
    (x :: xs).get ⟨i, Nat.mod_lt _ (Nat.succ_pos _)⟩
      :: sampleAux (lcg s) n ((x :: xs).eraseIdx i)

/-- Model of pandas DataFrame.sample(n=..., random_state=...): a
deterministic pseudorandom sample of n rows without replacement, seeded by
random_state when one is given and by the interpreter's ambient global RNG
state otherwise. -/
def pandasSample {α : Type} (ambient : Nat) (random_state : Option Nat)
    (n : Nat) (xs : List α) : List α :=
  sampleAux (random_state.getD ambient) n xs

/-- Embedding of data_loader._create_supply_chain_documents: when the frame
has more than max_rows rows it is replaced by df.sample(n=max_rows,
random_state=42), then each remaining (index, row) pair becomes one
Document.  The ambient parameter is the interpreter RNG state that sampling
would consume if no random_state were passed; the source passes the fixed
seed 42. -/
def _create_supply_chain_documents (ambient : Nat) (df : List (Nat × Row))
    (max_rows : Nat) : List Document :=
  let sampled :=
    if max_rows < df.length then pandasSample ambient (some 42) max_rows df
    else df
  sampled.map mkSupplyDoc

/-- Content template of data_loader._create_orders_documents for one row at
DataFrame index idx, stripped. -/
def ordersContent (idx : Nat) (row : Row) : String :=
  pyStrip ("\nOrden de Logística\n==================\nID de Orden: "
    ++ showF (rowGet row "Order ID" (.int idx))
    ++ "\nOrigen: " ++ showF (rowGet row "Origin Port" (.str "N/A"))
    ++ "\nDestino: Puerto de destino\nPlanta: "
    ++ showF (rowGet row "Plant Code" (.str "N/A"))
    ++ "\n\nUnidades: " ++ showF (rowGet row "Unit quantity" (.str "N/A"))
    ++ "\nPeso: " ++ showF (rowGet row "Weight" (.str "N/A")) ++ " kg"
    ++ "\n\nServicio: " ++ showF (rowGet row "Service Level" (.str "N/A"))
    ++ "\nCarrier: " ++ showF (rowGet row "Carrier" (.str "N/A")) ++ "\n")

/-- Metadata built for one orders row. -/
def ordersMetadata (idx : Nat) (row : Row) : List (String × String) :=
  [("source", "order_list"),
   ("order_id", showF (rowGet row "Order ID" (.int idx))),
   ("origin", showF (rowGet row "Origin Port" (.str ""))),
   ("plant", showF (rowGet row "Plant Code" (.str "")))]

/-- Document built from one orders (index, row) pair. -/
def mkOrdersDoc (p : Nat × Row) : Document :=
  ⟨ordersContent p.1 p.2, ordersMetadata p.1 p.2⟩

/-- Embedding of data_loader._create_orders_documents: one Document per
(index, row) pair, no sampling. -/
def _create_orders_documents (df : List (Nat × Row)) : List Document :=
  df.map mkOrdersDoc

/-- Content template of data_loader._create_freight_documents for one row,
stripped (the freight template reads no DataFrame index). -/
def freightContent (row : Row) : String :=
  pyStrip ("\nTarifa de Flete\n===============\nCarrier: "
    ++ showF (rowGet row "Carrier" (.str "N/A"))
    ++ "\nPuerto de Origen: " ++ showF (rowGet row "orig_port_cd" (.str "N/A"))
    ++ "\nPuerto de Destino: " ++ showF (rowGet row "dest_port_cd" (.str "N/A"))
    ++ "\n\nRango de Peso:\n- Mínimo: "
    ++ showF (rowGet row "minm_wgh_qty" (.int 0)) ++ " kg"
    ++ "\n- Máximo: " ++ showF (rowGet row "max_wgh_qty" (.int 0)) ++ " kg"
    ++ "\n\nTarifa: $" ++ fmt2 (rowGet row "rate" (.int 0))
    ++ "\nModo de Transporte: " ++ showF (rowGet row "mode_dsc" (.str "N/A"))
    ++ "\nTipo de Servicio: " ++ showF (rowGet row "svc_cd" (.str "N/A")) ++ "\n")

/-- Metadata built for one freight row. -/
def freightMetadata (row : Row) : List (String × String) :=
  [("source", "freight_rates"),
   ("carrier", showF (rowGet row "Carrier" (.str ""))),
   ("mode", showF (rowGet row "mode_dsc" (.str "")))]

/-- Document built from one freight (index, row) pair. -/
def mkFreightDoc (p : Nat × Row) : Document :=
  ⟨freightContent p.2, freightMetadata p.2⟩

/-- Embedding of data_loader._create_freight_documents: one Document per
(index, row) pair, no sampling. -/
def _create_freight_documents (df : List (Nat × Row)) : List Document :=
  df.map mkFreightDoc

/-- Outcome of reading one dataset file in data_loader.load_documents: the
file may be absent (the path-existence guard fails), reading or parsing it
may raise (caught by the except branch), or it yields a DataFrame. -/
inductive ReadOutcome where
  | absent
  | failed (msg : String)
  | ok (df : List (Nat × Row))

/-- Documents a dataset contributes in load_documents: its builder's output
when the file was present and read successfully, nothing otherwise (the
except branch only logs). -/
def datasetDocs (o : ReadOutcome) (build : List (Nat × Row) → List Document) :
    List Document :=
  match o with
  | .ok df => build df
  | _ => []

/-- Embedding of data_loader.load_documents: the three datasets are loaded
in order (supply chain, orders, freight rates), each one's documents
extending the accumulated list; a read failure of one dataset is caught and
contributes zero documents without stopping the remaining loads. -/
def load_documents (ambient : Nat) (supply orders freight : ReadOutcome)
    (max_supply_chain_rows : Nat) : List Document :=
  datasetDocs supply
      (fun df => _create_supply_chain_documents ambient df max_supply_chain_rows)
    ++ datasetDocs orders _create_orders_documents
    ++ datasetDocs freight _create_freight_documents

lemma length_sampleAux {α : Type} :
    ∀ (n s : Nat) (xs : List α),
      (sampleAux s n xs).length = min n xs.length
  | 0, _, _ => by simp [sampleAux]
  | _ + 1, _, [] => by simp [sampleAux]
  | n + 1, s, x :: xs => by
    have hlt : s % (xs.length + 1) < (x :: xs).length :=
      Nat.mod_lt _ (Nat.succ_pos _)
    have ih := length_sampleAux n (lcg s)
      ((x :: xs).eraseIdx (s % (xs.length + 1)))
    have hl : ((x :: xs).eraseIdx (s % (xs.length + 1))).length = xs.length := by
      rw [List.length_eraseIdx_of_lt hlt]
      simp
    simp only [sampleAux, List.length_cons, ih, hl]
    omega

/-- C5: the supply-chain builder produces exactly row_cap Documents when the
row count exceeds row_cap (via the fixed-seed sample) and otherwise exactly
one Document per Raw Record in order, each (index, row) pair mapping to a
single Document; no row is split across Documents. -/
theorem supply_chain_row_cap_one_doc_per_record
    (g : Nat) (df : List (Nat × Row)) (cap : Nat) :
    (cap < df.length → (_create_supply_chain_documents g df cap).length = cap)
    ∧ (df.length ≤ cap →
        _create_supply_chain_documents g df cap = df.map mkSupplyDoc)
    ∧ _create_supply_chain_documents g df cap
        = (if cap < df.length then pandasSample g (some 42) cap df
           else df).map mkSupplyDoc := by
  refine ⟨?_, ?_, rfl⟩
  · intro h
    unfold _create_supply_chain_documents
    rw [if_pos h, List.length_map]
    unfold pandasSample
    rw [length_sampleAux]
    omega
  · intro h
    unfold _create_supply_chain_documents
    rw [if_neg (by omega)]

theorem supply_chain_row_cap_one_doc_per_record_witness :
    ((2 : Nat) < 3
      ∧ (_create_supply_chain_documents 0 [(0, []), (1, []), (2, [])] 2).length = 2)
    ∧ ((3 : Nat) ≤ 5
      ∧ _create_supply_chain_documents 0 [(0, []), (1, []), (2, [])] 5
          = [(0, []), (1, []), (2, [])].map mkSupplyDoc) :=
  ⟨⟨by omega,
    (supply_chain_row_cap_one_doc_per_record 0 [(0, []), (1, []), (2, [])] 2).1
      (by decide)⟩,
   ⟨by omega,
    (supply_chain_row_cap_one_doc_per_record 0 [(0, []), (1, []), (2, [])] 5).2.1
      (by decide)⟩⟩

/-- C6: the supply-chain builder is insensitive to the interpreter's ambient
RNG state, because the sample is drawn with the fixed seed random_state=42;
two calls on the same row set (whatever the surrounding RNG states) yield
identical sampled subsets in identical order, hence identical Documents. -/
theorem supply_chain_sampling_deterministic
    (g1 g2 : Nat) (df : List (Nat × Row)) (cap : Nat) :
    _create_supply_chain_documents g1 df cap
      = _create_supply_chain_documents g2 df cap := rfl

/-- C8: a caught read or parse failure for any one dataset contributes zero
Documents to load_documents, exactly as if that dataset file were absent,
and the remaining datasets still contribute their documents; a failure in
one dataset never aborts the overall load or empties the other datasets'
result. -/
theorem load_documents_partial_failure
    (g : Nat) (msg : String) (cap : Nat) (s o f : ReadOutcome)
    (dfo dff : List (Nat × Row)) :
    load_documents g (.failed msg) o f cap = load_documents g .absent o f cap
    ∧ load_documents g s (.failed msg) f cap
        = load_documents g s .absent f cap
    ∧ load_documents g s o (.failed msg) cap
        = load_documents g s o .absent cap
    ∧ load_documents g (.failed msg) (.ok dfo) (.ok dff) cap
        = _create_orders_documents dfo ++ _create_freight_documents dff :=
  ⟨rfl, rfl, rfl, rfl⟩

/-- Occurrence check of a pattern inside a character list. -/
def hasSubChars (pat : List Char) : List Char → Bool
  | [] => pat.isEmpty
  | x :: t => pat.isPrefixOf (x :: t) || hasSubChars pat t

/-- Occurrence check of a pattern string inside a string (substring test,
used to state where the templates place each rendered field). -/
def strContainsSub (s pat : String) : Bool :=
  hasSubChars pat.data s.data

/-- C3 counterexample: on a supply-chain Raw Record with every field absent,
the builder's Document content renders the price as "$0.00" and the quantity
as "1" - numeric defaults, not the "N/A" placeholder used by every other
template field - so the claim that absent price and quantity fields render
the "not available" placeholder is false. -/
theorem supply_chain_price_quantity_default_counterexample :
    (_create_supply_chain_documents 0 [(0, [])] 500).map Document.page_content
        = [scContent 0 []]
    ∧ strContainsSub (scContent 0 []) "Precio: $0.00" = true
    ∧ strContainsSub (scContent 0 []) "Precio: $N/A" = false
    ∧ strContainsSub (scContent 0 []) "Cantidad: 1" = true
    ∧ strContainsSub (scContent 0 []) "Cantidad: N/A" = false := by
  refine ⟨rfl, ?_, ?_, ?_, ?_⟩ <;> decide

/-- C3 amended: in the supply-chain template every field read with a string
default renders the "N/A" placeholder when absent from the record, but the
price field defaults to the number 0 (rendered "$0.00" by the two-decimal
format) and the quantity field defaults to the number 1; on the all-absent
record the built content is exactly the literal below, every template label
present. -/
theorem supply_chain_placeholder_amended (row : Row) :
    (List.lookup "Product Price" row = none →
      fmt2 (rowGet row "Product Price" (.int 0)) = "0.00")
    ∧ (List.lookup "Order Item Quantity" row = none →
      showF (rowGet row "Order Item Quantity" (.int 1)) = "1")
    ∧ (∀ k : String, List.lookup k row = none →
      showF (rowGet row k (.str "N/A")) = "N/A")
    ∧ scContent 0 []
        = "Orden de Envío #0\n======================================\nCliente: N/A (N/A)\nCiudad: N/A, N/A, N/A\n\nProducto: N/A\nCategoría: N/A > N/A\nPrecio: $0.00\nCantidad: 1\n\nEnvío:\n- Modo: N/A\n- Estado: N/A\n- Días programados: N/A\n- Días reales: N/A\n\nMercado: N/A\nRegión: N/A" := by
  refine ⟨?_, ?_, ?_, by decide⟩
  · intro h; unfold rowGet; rw [h]; rfl
  · intro h; unfold rowGet; rw [h]; rfl
  · intro k h; unfold rowGet; rw [h]; rfl

theorem supply_chain_placeholder_amended_witness :
    fmt2 (rowGet [] "Product Price" (.int 0)) = "0.00"
    ∧ showF (rowGet [] "Order Item Quantity" (.int 1)) = "1"
    ∧ showF (rowGet [] "Market" (.str "N/A")) = "N/A" :=
  ⟨(supply_chain_placeholder_amended []).1 rfl,
   (supply_chain_placeholder_amended []).2.1 rfl,
   (supply_chain_placeholder_amended []).2.2.1 "Market" rfl⟩

/-- C4: on a Raw Record carrying both the scheduled shipping duration
(column "Days for shipment (scheduled)", value 4) and the actual shipping
duration (column "Days for shipping (real)", value 6), the built content
renders "Días reales: 4" - the scheduled value - and never reads the actual
6; the "Días programados" line reads the nonexistent column "Days for
shipping (scheduled)" and renders N/A.  The code contradicts its own line
labels: the claim (and the spec's scheduled-vs-actual section) is the
intent, and the source's reuse of the scheduled column in the "Días reales"
hole is the slip. -/
theorem supply_chain_days_reales_reads_scheduled_column :
    strContainsSub
        (scContent 0 [("Days for shipment (scheduled)", FVal.int 4),
          ("Days for shipping (real)", FVal.int 6)])
        "- Días reales: 4" = true
    ∧ strContainsSub
        (scContent 0 [("Days for shipment (scheduled)", FVal.int 4),
          ("Days for shipping (real)", FVal.int 6)])
        "6" = false
    ∧ strContainsSub
        (scContent 0 [("Days for shipment (scheduled)", FVal.int 4),
          ("Days for shipping (real)", FVal.int 6)])
        "- Días programados: N/A" = true
    ∧ (_create_supply_chain_documents 0
        [(0, [("Days for shipment (scheduled)", FVal.int 4),
          ("Days for shipping (real)", FVal.int 6)])] 500).map
          Document.page_content
        = [scContent 0 [("Days for shipment (scheduled)", FVal.int 4),
            ("Days for shipping (real)", FVal.int 6)]] := by
  refine ⟨?_, ?_, ?_, rfl⟩ <;> decide

lemma mem_dropWhile_of_mem_of_neg {α : Type} {p : α → Bool} :
    ∀ {l : List α} {c : α}, c ∈ l → p c = false → c ∈ l.dropWhile p
  | a :: t, c, hc, hpc => by
    by_cases hpa : p a = true
    · rw [List.dropWhile_cons_of_pos hpa]
      rcases List.mem_cons.mp hc with h | h
      · subst h; rw [hpa] at hpc; exact absurd hpc (by simp)
      · exact mem_dropWhile_of_mem_of_neg h hpc
    · rw [List.dropWhile_cons_of_neg hpa]
      exact hc

lemma stripChars_ne_nil {l : List Char} {c : Char} (hc : c ∈ l)
    (hcs : isPySpace c = false) : stripChars l ≠ [] := by
  intro h
  unfold stripChars at h
  rw [List.reverse_eq_nil_iff, List.dropWhile_eq_nil_iff] at h
  have hc1 : c ∈ l.dropWhile isPySpace := mem_dropWhile_of_mem_of_neg hc hcs
  have := h c (List.mem_reverse.mpr hc1)
  rw [hcs] at this
  exact absurd this (by simp)

lemma pyStrip_ne_empty {s : String} {c : Char} (hc : c ∈ s.data)
    (hcs : isPySpace c = false) : pyStrip s ≠ "" := by
  intro h
  have hd : stripChars s.data = [] := congrArg String.data h
  exact stripChars_ne_nil hc hcs hd

lemma mem_data_append_left {c : Char} {a : String} (b : String)
    (h : c ∈ a.data) : c ∈ (a ++ b).data := by
  rw [String.data_append]
  exact List.mem_append_left _ h

lemma scContent_ne_empty (idx : Nat) (row : Row) : scContent idx row ≠ "" := by
  unfold scContent
  apply pyStrip_ne_empty (c := 'O')
  · repeat apply mem_data_append_left
    decide
  · decide

lemma ordersContent_ne_empty (idx : Nat) (row : Row) :
    ordersContent idx row ≠ "" := by
  unfold ordersContent
  apply pyStrip_ne_empty (c := 'O')
  · repeat apply mem_data_append_left
    decide
  · decide

lemma freightContent_ne_empty (row : Row) : freightContent row ≠ "" := by
  unfold freightContent
  apply pyStrip_ne_empty (c := 'T')
  · repeat apply mem_data_append_left
    decide
  · decide

/-- C9: every Document produced by any of the three builders has a non-empty
content string and a metadata mapping whose source key identifies the
dataset schema that produced it (supply_chain_dataset, order_list or
freight_rates respectively). -/
theorem builder_documents_nonempty_with_source
    (g : Nat) (dfs dfo dff : List (Nat × Row)) (cap : Nat) :
    (∀ d ∈ _create_supply_chain_documents g dfs cap,
      d.page_content ≠ ""
        ∧ List.lookup "source" d.metadata = some "supply_chain_dataset")
    ∧ (∀ d ∈ _create_orders_documents dfo,
      d.page_content ≠ ""
        ∧ List.lookup "source" d.metadata = some "order_list")
    ∧ (∀ d ∈ _create_freight_documents dff,
      d.page_content ≠ ""
        ∧ List.lookup "source" d.metadata = some "freight_rates") := by
  refine ⟨?_, ?_, ?_⟩
  · intro d hd
    unfold _create_supply_chain_documents at hd
    rw [List.mem_map] at hd
    obtain ⟨p, _, rfl⟩ := hd
    exact ⟨scContent_ne_empty p.1 p.2, rfl⟩
  · intro d hd
    rw [_create_orders_documents, List.mem_map] at hd
    obtain ⟨p, _, rfl⟩ := hd
    exact ⟨ordersContent_ne_empty p.1 p.2, rfl⟩
  · intro d hd
    rw [_create_freight_documents, List.mem_map] at hd
    obtain ⟨p, _, rfl⟩ := hd
    exact ⟨freightContent_ne_empty p.2, rfl⟩

theorem builder_documents_nonempty_with_source_witness :
    ((mkSupplyDoc (0, [])).page_content ≠ ""
      ∧ List.lookup "source" (mkSupplyDoc (0, [])).metadata
          = some "supply_chain_dataset")
    ∧ ((mkOrdersDoc (0, [])).page_content ≠ ""
      ∧ List.lookup "source" (mkOrdersDoc (0, [])).metadata = some "order_list")
    ∧ ((mkFreightDoc (0, [])).page_content ≠ ""
      ∧ List.lookup "source" (mkFreightDoc (0, [])).metadata
          = some "freight_rates") :=
  ⟨(builder_documents_nonempty_with_source 0 [(0, [])] [(0, [])] [(0, [])] 500).1
      (mkSupplyDoc (0, [])) (by simp [_create_supply_chain_documents]),
   (builder_documents_nonempty_with_source 0 [(0, [])] [(0, [])] [(0, [])] 500).2.1
      (mkOrdersDoc (0, [])) (by simp [_create_orders_documents]),
   (builder_documents_nonempty_with_source 0 [(0, [])] [(0, [])] [(0, [])] 500).2.2
      (mkFreightDoc (0, [])) (by simp [_create_freight_documents])⟩

end RagLogistics
